import Mathlib

/-!
Verification of the story-teller client (session controller, projector,
selection policy, repository client) against its specification.

The embedding translates `src/components/StoryReader.tsx` and `src/api.ts`.
React state is modelled as an explicit `SessionState` record; each async
handler becomes a function from the current state and the outcomes of its
remote calls (as `Except` values) to the next state.  JavaScript falsiness
of `""`, `0`, `null`/`undefined` is modelled explicitly where the source
relies on it.
-/

/-- Mirrors the `EndingScore` interface of `api.ts` (fields `type`, `score`). -/
structure EndingScore where
  type : String
  score : Int
deriving DecidableEq

/-- Mirrors the `StoryStatus` interface of `api.ts`.  `ending_vector` is a
JavaScript object with string keys, whose entries keep insertion order; it is
modelled as an association list. -/
structure StoryStatus where
  story_id : String
  title : String
  day_index : Int
  max_days : Int
  finished : Bool
  last_emotion : Option String
  top2_endings : List EndingScore
  ending_vector : List (String × Int)
  open_threads : List String
  chapters_count : Int
deriving DecidableEq

/-- The nested `ending` payload of a persisted chapter
(`Record<string, unknown>` in `api.ts`, read defensively in
`loadStory`); only the fields the reader projects are modelled. -/
structure EndingPayload where
  ending_type : Option String
  resolved_threads : Option (List String)
  unresolved_threads : Option (List String)
deriving DecidableEq

/-- Mirrors the `Chapter` interface of `api.ts` (presentation-only fields
such as `seed`, `beat_used`, `evaluation`, `created_at` omitted). -/
structure Chapter where
  id : String
  story_id : String
  day : Int
  emotion : String
  chapter_type : String
  chapter_title : Option String
  chapter_text : String
  chapter_summary : String
  chapter_word_count : Int
  ending : Option EndingPayload
deriving DecidableEq

/-- Mirrors the `EndingResponse` interface of `api.ts`. -/
structure EndingResponse where
  ending_type : String
  title : String
  text : String
  word_count : Int
  resolved_threads : List String
  unresolved_threads : List String
deriving DecidableEq

/-- Mirrors the `RunDayResponse` interface of `api.ts` (optional metadata
fields omitted).  `handleContinue` discards this value entirely. -/
structure RunDayResponse where
  story_id : String
  day_generated : Int
  emotion : String
  chapter_text : String
  chapter_word_count : Int
  chapter_summary : String
  ending_vector : List (String × Int)
  story_complete : Bool
deriving DecidableEq

/-- The React state of the `StoryReader` component (`useState` hooks at the
top of the component; cosmetic `loadingMessage` and `insightsOpen` are not
modelled).  `selectedChapter` is `number | null` in the source; the value
`-1` is the ending sentinel. -/
structure SessionState where
  story : Option StoryStatus
  chapters : List Chapter
  loading : Bool
  generating : Bool
  error : String
  showModal : Bool
  ending : Option EndingResponse
  generatingEnding : Bool
  selectedChapter : Option Int
deriving DecidableEq

/-- The initial hook values of `StoryReader`: no story, empty chapter list,
`loading = true`, everything else cleared. -/
def initialSession : SessionState :=
  { story := none
    chapters := []
    loading := true
    generating := false
    error := ""
    showModal := false
    ending := none
    generatingEnding := false
    selectedChapter := none }

/-- JavaScript `a || b` on an optional string: `undefined` and the empty
string are falsy, so both fall back to the default. -/
def jsStrOr (o : Option String) (d : String) : String :=
  match o with
  | some s => if s == "" then d else s
  | none => d

/-- Projection of a persisted chapter of type "ending" into an
`EndingResponse`, as done inline in `loadStory`
(`StoryReader.tsx`, the `if (endingChapter)` block): missing or empty
`ending_type` defaults to "unknown", missing title to "The End", missing
thread arrays to `[]` (a present empty array is truthy in JavaScript and is
kept). -/
def projectEnding (ch : Chapter) : EndingResponse :=
  { ending_type := jsStrOr (ch.ending.bind EndingPayload.ending_type) "unknown"
    title := jsStrOr ch.chapter_title "The End"
    text := ch.chapter_text
    word_count := ch.chapter_word_count
    resolved_threads := ((ch.ending.bind EndingPayload.resolved_threads).getD [])
    unresolved_threads := ((ch.ending.bind EndingPayload.unresolved_threads).getD []) }

/-- The `loadStory` callback of `StoryReader`: on success it replaces the
snapshot, keeps only non-"ending" chapters, projects the first persisted
"ending" chapter (if any) into the ending slot, and resets the selection to
the day of the first listed regular chapter; on failure it records the error
message and leaves all content untouched.  The two fetches are combined into
one `Except` because `Promise.all` fails if either fails and the `catch`
applies nothing partial. -/
def loadStory (s : SessionState) (result : Except String (StoryStatus × List Chapter)) :
    SessionState :=
  match result with
  | .ok (storyData, chaptersData) =>
      let regularChapters := chaptersData.filter (fun c => c.chapter_type != "ending")
      let endingChapter := chaptersData.find? (fun c => c.chapter_type == "ending")
      { s with
        loading := false
        error := ""
        story := some storyData
        chapters := regularChapters
        ending := match endingChapter with
          | some ch => some (projectEnding ch)
          | none => s.ending
        selectedChapter := match regularChapters.head? with
          | some c => some c.day
          | none => s.selectedChapter }
  | .error e => { s with loading := false, error := e }

/-- The `handleContinue` handler: closes the modal, raises `generating`,
clears the error, submits the day; on success it discards the response and
fully reloads, on failure it records the error; `generating` is lowered in
`finally`. -/
def handleContinue (s : SessionState) (runResult : Except String RunDayResponse)
    (loadResult : Except String (StoryStatus × List Chapter)) : SessionState :=
  let s1 := { s with showModal := false, generating := true, error := "" }
  match runResult with
  | .error e => { s1 with error := e, generating := false }
  | .ok _ =>
      let s2 := loadStory s1 loadResult
      { s2 with generating := false }

/-- The `handleGenerateEnding` handler: raises `generatingEnding`, submits
the ending request; on success it stores the response as the ending, fully
reloads, and selects the ending sentinel `-1`; on failure it records the
error; `generatingEnding` is lowered in `finally`. -/
def handleGenerateEnding (s : SessionState) (genResult : Except String EndingResponse)
    (loadResult : Except String (StoryStatus × List Chapter)) : SessionState :=
  let s1 := { s with generatingEnding := true }
  match genResult with
  | .error e => { s1 with error := e, generatingEnding := false }
  | .ok result =>
      let s2 := loadStory { s1 with ending := some result } loadResult
      { s2 with selectedChapter := some (-1), generatingEnding := false }

/-- The dismiss button of the error banner (`onClick = setError("")`). -/
def dismissError (s : SessionState) : SessionState :=
  { s with error := "" }

/-- The `currentChapter` derivation: `selectedChapter ? chapters.find(c =>
c.day === selectedChapter) : chapters[0]`.  A `null` selection and a
selection of `0` are both falsy, so both display the first listed chapter. -/
def currentChapter (selectedChapter : Option Int) (chapters : List Chapter) :
    Option Chapter :=
  match selectedChapter with
  | some d => if d == 0 then chapters.head? else chapters.find? (fun c => c.day == d)
  | none => chapters.head?

/-- Render condition of the "Continue Story" button:
`!story.finished && story.day_index <= story.max_days`. -/
def continueOffered (st : StoryStatus) : Bool :=
  !st.finished && decide (st.day_index ≤ st.max_days)

/-- Render condition of the "Generate Ending" button:
`(story.finished || story.day_index > story.max_days) && !ending`. -/
def endingOffered (st : StoryStatus) (ending : Option EndingResponse) : Bool :=
  (st.finished || decide (st.day_index > st.max_days)) && ending.isNone

/-- A click on "Continue Story" can fire exactly when the story is rendered,
the button is rendered, and it is not disabled (`disabled = loading ||
generating`). -/
def continueEnabled (s : SessionState) : Bool :=
  match s.story with
  | none => false
  | some st => continueOffered st && !(s.loading || s.generating)

/-- A click on "Generate Ending" can fire exactly when the story is
rendered, the button is rendered, and it is not disabled
(`disabled = generatingEnding`). -/
def endingEnabled (s : SessionState) : Bool :=
  match s.story with
  | none => false
  | some st => endingOffered st s.ending && !s.generatingEnding

/-- Stable insertion into a score-descending list: the new element (which
originates earlier in the input) is placed before every element with an
equal or smaller score. -/
def insertDesc (x : String × Int) : List (String × Int) → List (String × Int)
  | [] => [x]
  | y :: ys => if y.2 > x.2 then y :: insertDesc x ys else x :: y :: ys

/-- Stable sort by score descending, the embedding of
`entries.sort(([, a], [, b]) => b - a)` — JavaScript `Array.prototype.sort`
is stable, and any stable sort under the same comparator yields the same
list. -/
def sortDesc : List (String × Int) → List (String × Int)
  | [] => []
  | x :: xs => insertDesc x (sortDesc xs)

/-- The `getDominantEnding` derivation of `StoryReader`: `null` when the
story has no `ending_vector` or it is empty, otherwise the head of the
stable score-descending sort of its entries. -/
def getDominantEnding (endingVector : Option (List (String × Int))) :
    Option (String × Int) :=
  match endingVector with
  | none => none
  | some entries =>
      if entries.length == 0 then none
      else (sortDesc entries).head?

/-- First entry attaining the maximal score, scanning left to right
(specification-side description of the stable tie-break). -/
def firstMax : List (String × Int) → Option (String × Int)
  | [] => none
  | x :: xs =>
      match firstMax xs with
      | none => some x
      | some m => if m.2 > x.2 then some m else some x

/-!  Repository client (`api.ts`).  A remote response is modelled by its
HTTP status and the optional `detail` field of its JSON error body; success
payload parsing is abstracted to `Unit` because only the error behaviour is
specified here.  `response.ok` of `fetch` is exactly "status in 200..299". -/

/-- An HTTP response as the client observes it: status code and the `detail`
string of the JSON body, when present. -/
structure HttpResponse where
  status : Nat
  detail : Option String
deriving DecidableEq

/-- `Response.ok` of the Fetch API: status in the inclusive range 200-299. -/
def respOk (r : HttpResponse) : Bool :=
  decide (200 ≤ r.status) && decide (r.status < 300)

/-- Error path of `getStory`: non-ok responses throw
`error.detail || "Failed to get story"`. -/
def getStory (r : HttpResponse) : Except String Unit :=
  if respOk r then .ok () else .error (jsStrOr r.detail "Failed to get story")

/-- Error path of `listChapters`. -/
def listChapters (r : HttpResponse) : Except String Unit :=
  if respOk r then .ok () else .error (jsStrOr r.detail "Failed to list chapters")

/-- Error path of `runDay`. -/
def runDay (r : HttpResponse) : Except String Unit :=
  if respOk r then .ok () else .error (jsStrOr r.detail "Failed to run day")

/-- Error path of `generateEnding`. -/
def generateEnding (r : HttpResponse) : Except String Unit :=
  if respOk r then .ok () else .error (jsStrOr r.detail "Failed to generate ending")

/-- Error path of `listStories`. -/
def listStories (r : HttpResponse) : Except String Unit :=
  if respOk r then .ok () else .error (jsStrOr r.detail "Failed to list stories")

/-- Error path of `createStory`. -/
def createStory (r : HttpResponse) : Except String Unit :=
  if respOk r then .ok () else .error (jsStrOr r.detail "Failed to create story")

/-- Error path of `getEmotions`. -/
def getEmotions (r : HttpResponse) : Except String Unit :=
  if respOk r then .ok () else .error (jsStrOr r.detail "Failed to get emotions")

/-- Error path of `listDemoStories`. -/
def listDemoStories (r : HttpResponse) : Except String Unit :=
  if respOk r then .ok () else .error (jsStrOr r.detail "Failed to list demo stories")

/-- Error path of `createStoryFromDemo`. -/
def createStoryFromDemo (r : HttpResponse) : Except String Unit :=
  if respOk r then .ok ()
  else .error (jsStrOr r.detail "Failed to create story from demo")

/-- Error path of `deleteStory`: `if (!response.ok && response.status !==
204)` — a 204 is a success, and any other non-2xx throws
`error.detail || "Failed to delete story"`. -/
def deleteStory (r : HttpResponse) : Except String Unit :=
  if !respOk r && r.status != 204 then
    .error (jsStrOr r.detail "Failed to delete story")
  else .ok ()

/-!  Supporting lemmas for the dominant-ending claim. -/

/-- `insertDesc` never produces the empty list. -/
lemma insertDesc_ne_nil (x : String × Int) (l : List (String × Int)) :
    insertDesc x l ≠ [] := by
  cases l with
  | nil => simp [insertDesc]
  | cons y ys =>
      unfold insertDesc
      by_cases h : y.2 > x.2 <;> simp [h]

/-- `sortDesc` produces the empty list only on the empty list. -/
lemma sortDesc_eq_nil_iff (l : List (String × Int)) :
    sortDesc l = [] ↔ l = [] := by
  cases l with
  | nil => simp [sortDesc]
  | cons x xs =>
      simp only [sortDesc]
      constructor
      · intro h; exact absurd h (insertDesc_ne_nil x (sortDesc xs))
      · intro h; cases h

/-- The head of a stable descending insertion is the later of the inserted
element and the previous head, preferring the previous head only when its
score is strictly larger. -/
lemma insertDesc_head (x : String × Int) (l : List (String × Int)) :
    (insertDesc x l).head? =
      match l.head? with
      | none => some x
      | some y => if y.2 > x.2 then some y else some x := by
  cases l with
  | nil => simp [insertDesc]
  | cons y ys =>
      unfold insertDesc
      by_cases h : y.2 > x.2 <;> simp [h]

/-- The head of the stable descending sort is the first entry attaining the
maximal score. -/
lemma sortDesc_head_eq_firstMax (l : List (String × Int)) :
    (sortDesc l).head? = firstMax l := by
  induction l with
  | nil => simp [sortDesc, firstMax]
  | cons x xs ih =>
      simp only [sortDesc, firstMax, insertDesc_head, ih]

/-- `firstMax` returns `none` exactly on the empty list. -/
lemma firstMax_eq_none_iff (l : List (String × Int)) :
    firstMax l = none ↔ l = [] := by
  cases l with
  | nil => simp [firstMax]
  | cons x xs =>
      simp only [firstMax]
      cases firstMax xs with
      | none => simp
      | some m => by_cases h : m.2 > x.2 <;> simp [h]

/-- `firstMax` on a nonempty list returns an element that splits the list
into a strictly-smaller prefix and a no-larger suffix: it is the first
entry, in insertion order, with maximal score. -/
lemma firstMax_spec (l : List (String × Int)) (h : l ≠ []) :
    ∃ e pre post, firstMax l = some e ∧ l = pre ++ e :: post ∧
      (∀ e' ∈ pre, e'.2 < e.2) ∧ (∀ e' ∈ post, e'.2 ≤ e.2) := by
  induction l with
  | nil => exact absurd rfl h
  | cons x xs ih =>
      cases hfm : firstMax xs with
      | none =>
          have hxs : xs = [] := (firstMax_eq_none_iff xs).mp hfm
          subst hxs
          exact ⟨x, [], [], by simp [firstMax], by simp, by simp, by simp⟩
      | some m =>
          have hxs : xs ≠ [] := by
            intro hh
            rw [(firstMax_eq_none_iff xs).mpr hh] at hfm
            cases hfm
          obtain ⟨e, pre, post, he, hsplit, hpre, hpost⟩ := ih hxs
          have hem : m = e := by
            rw [he] at hfm
            exact (Option.some_inj.mp hfm).symm
          subst hem
          by_cases hcmp : m.2 > x.2
          · refine ⟨m, x :: pre, post, ?_, ?_, ?_, hpost⟩
            · simp [firstMax, hfm, hcmp]
            · simp [hsplit]
            · intro e' he'
              rcases List.mem_cons.mp he' with h1 | h2
              · subst h1; exact hcmp
              · exact hpre e' h2
          · refine ⟨x, [], xs, ?_, rfl, by simp, ?_⟩
            · simp [firstMax, hfm, hcmp]
            · intro e' he'
              push_neg at hcmp
              rw [hsplit] at he'
              rcases List.mem_append.mp he' with h1 | h2
              · exact le_trans (le_of_lt (hpre e' h1)) hcmp
              · rcases List.mem_cons.mp h2 with h3 | h4
                · subst h3; exact hcmp
                · exact le_trans (hpost e' h4) hcmp

/-!  Concrete sample data used by counterexamples and witnesses. -/

/-- A minimal story snapshot. -/
def storyA : StoryStatus :=
  { story_id := "s1"
    title := "A Tale"
    day_index := 1
    max_days := 7
    finished := false
    last_emotion := none
    top2_endings := []
    ending_vector := []
    open_threads := []
    chapters_count := 0 }

/-- The snapshot of the spec scenario `day_index = 4, max_days = 7,
finished = false`. -/
def storyDay4 : StoryStatus :=
  { storyA with day_index := 4 }

/-- The snapshot of the spec scenario `day_index = 8, max_days = 7,
finished = false`. -/
def storyDay8 : StoryStatus :=
  { storyA with day_index := 8 }

/-- A minimal chapter with the given id, day and type. -/
def mkChapter (i : String) (d : Int) (ctype : String) : Chapter :=
  { id := i
    story_id := "s1"
    day := d
    emotion := "neutral"
    chapter_type := ctype
    chapter_title := none
    chapter_text := "text"
    chapter_summary := "summary"
    chapter_word_count := 100
    ending := none }

/-- The prologue chapter (day 0). -/
def chPrologue : Chapter := mkChapter "c0" 0 "prologue"

/-- A day-1 chapter. -/
def chDayOne : Chapter := mkChapter "c1" 1 "day"

/-- A persisted ending chapter with a nested ending payload. -/
def chEnding : Chapter :=
  { mkChapter "c9" 8 "ending" with
    chapter_title := some "Finale"
    ending := some
      { ending_type := some "redemption"
        resolved_threads := some ["t1"]
        unresolved_threads := some [] } }

/-- A sample ending held in session state. -/
def sampleEnding : EndingResponse :=
  { ending_type := "redemption"
    title := "The End"
    text := "fin"
    word_count := 50
    resolved_threads := []
    unresolved_threads := [] }

/-- A sample day-submission response (discarded by `handleContinue`). -/
def sampleRun : RunDayResponse :=
  { story_id := "s1"
    day_generated := 1
    emotion := "kind"
    chapter_text := "t"
    chapter_word_count := 10
    chapter_summary := "s"
    ending_vector := [("redemption", 1)]
    story_complete := false }

/-- An idle session with a manual selection of day 5. -/
def manualSelState : SessionState :=
  { initialSession with loading := false, selectedChapter := some 5 }

/-- An idle session holding an ending. -/
def stateWithEnding : SessionState :=
  { initialSession with loading := false, ending := some sampleEnding }

/-- A session with a day submission in flight while the snapshot has
overrun its day budget. -/
def overrunBusyState : SessionState :=
  { initialSession with
    loading := false
    story := some storyDay8
    generating := true }

/-- A session with every in-flight flag raised. -/
def busyState : SessionState :=
  { initialSession with
    story := some storyA
    generating := true
    generatingEnding := true }

/-- An idle session with no content. -/
def idleEmptyState : SessionState :=
  { initialSession with loading := false }

/-- A failed response carrying a JSON `detail` field. -/
def r404 : HttpResponse := { status := 404, detail := some "boom" }

/-- A plain successful response. -/
def r200 : HttpResponse := { status := 200, detail := none }

/-- The ending vector of the spec's tie-break example, `redemption`
inserted first. -/
def vEx : List (String × Int) := [("redemption", 3), ("tragedy", 3), ("mystery", 1)]

/-!  Claim theorems. -/

/-- C1 (counterexample): after a successful load, the selection is the day of
the first listed non-ending chapter, not the chapter with the numerically
largest `day`.  With the server returning `[prologue (day 0), day 1]` — the
day-ascending order the projector contract assumes — the reload of a session
with a manual selection resets the selection to day 0 although day 1 is the
largest day present. -/
theorem claim_C1_counterexample :
    (loadStory manualSelState (Except.ok (storyA, [chPrologue, chDayOne]))).selectedChapter
      = some 0
    ∧ ((loadStory manualSelState
        (Except.ok (storyA, [chPrologue, chDayOne]))).selectedChapter
        == some chDayOne.day) = false
    ∧ chDayOne.day = 1
    ∧ chDayOne.chapter_type = "day"
    ∧ chPrologue.day = 0 := by
  refine ⟨rfl, ?_, rfl, rfl, rfl⟩
  decide

/-- C1 (amended): on every successful load whose chapter list contains at
least one non-ending chapter, the selection is reset — overriding any manual
selection — to the day of the FIRST non-ending chapter in the
server-returned order (which is the most recent chapter only when the server
lists newest first). -/
theorem claim_C1_amended (s : SessionState) (st : StoryStatus) (chs : List Chapter)
    (h : chs.filter (fun c => c.chapter_type != "ending") ≠ []) :
    (loadStory s (Except.ok (st, chs))).selectedChapter =
      ((chs.filter (fun c => c.chapter_type != "ending")).head?).map Chapter.day := by
  cases hh : (chs.filter (fun c => c.chapter_type != "ending")).head? with
  | none => exact absurd (List.head?_eq_none_iff.mp hh) h
  | some c => simp [loadStory, hh]

/-- C1 (witness for the amended theorem): the reload of the manual-selection
session over `[prologue, day 1]` selects the first listed chapter's day. -/
theorem claim_C1_amended_witness :
    (loadStory manualSelState (Except.ok (storyA, [chPrologue, chDayOne]))).selectedChapter =
      (([chPrologue, chDayOne].filter (fun c => c.chapter_type != "ending")).head?).map
        Chapter.day :=
  claim_C1_amended manualSelState storyA [chPrologue, chDayOne] (by decide)

/-- C2 (counterexample): a successful day submission does NOT always leave
the session equal to a fresh load.  If the session already holds an ending
but the reload returns no persisted ending chapter, the stale ending is
retained, while an independent fresh load of the same server data holds no
ending. -/
theorem claim_C2_counterexample :
    (handleContinue stateWithEnding (Except.ok sampleRun)
      (Except.ok (storyA, [chPrologue]))).ending = some sampleEnding
    ∧ (loadStory initialSession (Except.ok (storyA, [chPrologue]))).ending = none := by
  exact ⟨rfl, rfl⟩

/-- C2 (amended): after a successful day submission the controller discards
the submission response entirely (the result is the same for any response
payload) and fully reloads before lowering the in-flight flag: the resulting
story snapshot and chapter list always equal those of an independent fresh
load of the same server data, and the ending does too whenever the reload
returns a persisted ending chapter or the session held no ending. -/
theorem claim_C2_amended (s : SessionState) (r : RunDayResponse) (st : StoryStatus)
    (chs : List Chapter) :
    (handleContinue s (Except.ok r) (Except.ok (st, chs))).story =
      (loadStory initialSession (Except.ok (st, chs))).story
    ∧ (handleContinue s (Except.ok r) (Except.ok (st, chs))).chapters =
      (loadStory initialSession (Except.ok (st, chs))).chapters
    ∧ (∀ r2 : RunDayResponse, handleContinue s (Except.ok r2) (Except.ok (st, chs)) =
        handleContinue s (Except.ok r) (Except.ok (st, chs)))
    ∧ ((chs.find? (fun c => c.chapter_type == "ending")).isSome = true →
        (handleContinue s (Except.ok r) (Except.ok (st, chs))).ending =
          (loadStory initialSession (Except.ok (st, chs))).ending)
    ∧ (s.ending = none →
        (handleContinue s (Except.ok r) (Except.ok (st, chs))).ending =
          (loadStory initialSession (Except.ok (st, chs))).ending)
    ∧ (handleContinue s (Except.ok r) (Except.ok (st, chs))).generating = false := by
  cases hfind : chs.find? (fun c => c.chapter_type == "ending") with
  | none =>
      refine ⟨by simp [handleContinue, loadStory], by simp [handleContinue, loadStory],
        fun r2 => rfl, ?_, ?_, rfl⟩
      · intro hs
        simp at hs
      · intro hnone
        simp [handleContinue, loadStory, hfind, hnone, initialSession]
  | some ch =>
      refine ⟨by simp [handleContinue, loadStory], by simp [handleContinue, loadStory],
        fun r2 => rfl, ?_, ?_, rfl⟩
      · intro _
        simp [handleContinue, loadStory, hfind]
      · intro _
        simp [handleContinue, loadStory, hfind]

/-- C2 (witness for the amended theorem): with a persisted ending chapter in
the reload, and separately with a session holding no ending, the
post-submission ending equals the fresh-load ending. -/
theorem claim_C2_amended_witness :
    ((handleContinue initialSession (Except.ok sampleRun)
        (Except.ok (storyA, [chPrologue, chEnding]))).ending =
      (loadStory initialSession (Except.ok (storyA, [chPrologue, chEnding]))).ending)
    ∧ ((handleContinue initialSession (Except.ok sampleRun)
        (Except.ok (storyA, [chPrologue]))).ending =
      (loadStory initialSession (Except.ok (storyA, [chPrologue]))).ending) :=
  ⟨(claim_C2_amended initialSession sampleRun storyA [chPrologue, chEnding]).2.2.2.1
      (by decide),
   (claim_C2_amended initialSession sampleRun storyA [chPrologue]).2.2.2.2.1 rfl⟩

/-- C3 (counterexample): a session state in which an advance is in flight
(`generating = true`) but whose snapshot has overrun its day budget leaves
the "Generate Ending" control enabled (its `disabled` attribute checks only
`generatingEnding`), so a generate-ending request is NOT refused while an
advance-day operation is in flight. -/
theorem claim_C3_counterexample :
    overrunBusyState.generating = true ∧ endingEnabled overrunBusyState = true := by
  exact ⟨rfl, rfl⟩

/-- C3 (amended): a second request of the same kind is refused — the
continue control is disabled whenever a load or an advance is in flight, and
the ending control is disabled whenever an ending generation is in flight —
but the two mutating operations' in-flight flags do not guard each other:
cross-operation exclusion relies solely on the snapshot's mutually exclusive
visibility conditions. -/
theorem claim_C3_amended (s : SessionState) :
    (s.generating = true → continueEnabled s = false)
    ∧ (s.loading = true → continueEnabled s = false)
    ∧ (s.generatingEnding = true → endingEnabled s = false) := by
  refine ⟨?_, ?_, ?_⟩ <;> intro h <;> cases hst : s.story <;>
    simp [continueEnabled, endingEnabled, h, hst]

/-- C3 (witness for the amended theorem): with every in-flight flag raised,
both controls are disabled. -/
theorem claim_C3_amended_witness :
    continueEnabled busyState = false ∧ endingEnabled busyState = false :=
  ⟨(claim_C3_amended busyState).1 rfl, (claim_C3_amended busyState).2.2 rfl⟩

/-- C4: for every non-empty ending vector, the dominant-ending computation
returns an entry of the vector such that every entry before it scores
strictly less (it is the first, in insertion order, among the maximal ones)
and every entry after it scores no more (it is maximal); on the spec's
example vector it returns `redemption`. -/
theorem claim_C4 (v : List (String × Int)) (h : v ≠ []) :
    (∃ e pre post, getDominantEnding (some v) = some e ∧ v = pre ++ e :: post ∧
      (∀ e2 ∈ pre, e2.2 < e.2) ∧ (∀ e2 ∈ post, e2.2 ≤ e.2))
    ∧ getDominantEnding (some vEx) = some ("redemption", 3) := by
  constructor
  · obtain ⟨e, pre, post, he, hsplit, hpre, hpost⟩ := firstMax_spec v h
    refine ⟨e, pre, post, ?_, hsplit, hpre, hpost⟩
    have hlen : (v.length == 0) = false := by
      cases v with
      | nil => exact absurd rfl h
      | cons x xs => rfl
    simp [getDominantEnding, hlen, sortDesc_head_eq_firstMax, he]
  · decide

/-- C4 (witness): the theorem applied to the spec's example vector. -/
theorem claim_C4_witness :
    (∃ e pre post, getDominantEnding (some vEx) = some e ∧ vEx = pre ++ e :: post ∧
      (∀ e2 ∈ pre, e2.2 < e.2) ∧ (∀ e2 ∈ post, e2.2 ≤ e.2))
    ∧ getDominantEnding (some vEx) = some ("redemption", 3) :=
  claim_C4 vEx (by decide)

/-- C5: advancing a day is offered exactly when `finished = false` and
`day_index ≤ max_days`; generating an ending is offered exactly when
(`finished = true` or `day_index > max_days`) and no ending exists; the
snapshot `day_index = 4, max_days = 7, finished = false` permits advance,
and `day_index = 8, max_days = 7, finished = false` refuses advance and
permits ending generation. -/
theorem claim_C5 :
    (∀ st : StoryStatus,
      continueOffered st = true ↔ (st.finished = false ∧ st.day_index ≤ st.max_days))
    ∧ (∀ (st : StoryStatus) (e : Option EndingResponse),
      endingOffered st e = true ↔
        ((st.finished = true ∨ st.day_index > st.max_days) ∧ e = none))
    ∧ continueOffered storyDay4 = true
    ∧ continueOffered storyDay8 = false
    ∧ endingOffered storyDay8 none = true := by
  refine ⟨?_, ?_, rfl, rfl, rfl⟩
  · intro st
    simp [continueOffered]
  · intro st e
    simp [endingOffered, Option.isNone_iff_eq_none]

/-- C5 (witness): both offer rules evaluated through the theorem on the
spec's scenario snapshots. -/
theorem claim_C5_witness :
    continueOffered storyDay4 = true ∧ endingOffered storyDay8 none = true :=
  ⟨(claim_C5.1 storyDay4).mpr ⟨rfl, by decide⟩,
   (claim_C5.2.1 storyDay8 none).mpr ⟨Or.inr (by decide), rfl⟩⟩

/-- C6: when the advance-day remote call fails, and when the generate-ending
remote call fails, the session returns to idle (the in-flight flag is
lowered) with the story snapshot, chapter list, ending and selection exactly
as before, and the failure message is recorded for display; no further
remote call is made by the handler. -/
theorem claim_C6 (s : SessionState) (e : String)
    (d d2 : Except String (StoryStatus × List Chapter)) :
    ((handleContinue s (Except.error e) d).story = s.story
    ∧ (handleContinue s (Except.error e) d).chapters = s.chapters
    ∧ (handleContinue s (Except.error e) d).ending = s.ending
    ∧ (handleContinue s (Except.error e) d).selectedChapter = s.selectedChapter
    ∧ (handleContinue s (Except.error e) d).generating = false
    ∧ (handleContinue s (Except.error e) d).generatingEnding = s.generatingEnding
    ∧ (handleContinue s (Except.error e) d).error = e)
    ∧ ((handleGenerateEnding s (Except.error e) d2).story = s.story
    ∧ (handleGenerateEnding s (Except.error e) d2).chapters = s.chapters
    ∧ (handleGenerateEnding s (Except.error e) d2).ending = s.ending
    ∧ (handleGenerateEnding s (Except.error e) d2).selectedChapter = s.selectedChapter
    ∧ (handleGenerateEnding s (Except.error e) d2).generatingEnding = false
    ∧ (handleGenerateEnding s (Except.error e) d2).generating = s.generating
    ∧ (handleGenerateEnding s (Except.error e) d2).error = e) :=
  ⟨⟨rfl, rfl, rfl, rfl, rfl, rfl, rfl⟩, ⟨rfl, rfl, rfl, rfl, rfl, rfl, rfl⟩⟩

/-- C7: if the session holds an ending, a successful reload never clears it:
the resulting ending is still present; when the server returns no persisted
ending chapter the held ending is kept unchanged, and when it returns one
the ending is re-derived as exactly the projection of that persisted
chapter. -/
theorem claim_C7 (s : SessionState) (e : EndingResponse) (st : StoryStatus)
    (chs : List Chapter) (h : s.ending = some e) :
    ((loadStory s (Except.ok (st, chs))).ending.isSome = true)
    ∧ (chs.find? (fun c => c.chapter_type == "ending") = none →
        (loadStory s (Except.ok (st, chs))).ending = some e)
    ∧ (∀ ch, chs.find? (fun c => c.chapter_type == "ending") = some ch →
        (loadStory s (Except.ok (st, chs))).ending = some (projectEnding ch)) := by
  cases hfind : chs.find? (fun c => c.chapter_type == "ending") with
  | none =>
      refine ⟨?_, fun _ => ?_, fun ch hch => ?_⟩
      · simp [loadStory, hfind, h]
      · simp [loadStory, hfind, h]
      · exact Option.noConfusion hch
  | some ch0 =>
      refine ⟨?_, fun hn => ?_, fun ch hch => ?_⟩
      · simp [loadStory, hfind]
      · exact Option.noConfusion hn
      · injection hch with hcc
        subst hcc
        simp [loadStory, hfind]

/-- C7 (witness): a session holding `sampleEnding` keeps it across a reload
with no persisted ending chapter, and re-derives the projected ending when
the reload returns the persisted ending chapter. -/
theorem claim_C7_witness :
    ((loadStory stateWithEnding (Except.ok (storyA, [chPrologue]))).ending.isSome = true)
    ∧ (loadStory stateWithEnding (Except.ok (storyA, [chPrologue]))).ending =
        some sampleEnding
    ∧ (loadStory stateWithEnding (Except.ok (storyA, [chEnding]))).ending =
        some (projectEnding chEnding) :=
  ⟨(claim_C7 stateWithEnding sampleEnding storyA [chPrologue] rfl).1,
   (claim_C7 stateWithEnding sampleEnding storyA [chPrologue] rfl).2.1 (by decide),
   (claim_C7 stateWithEnding sampleEnding storyA [chEnding] rfl).2.2 chEnding (by decide)⟩

/-- C8: for every repository-client operation of the spec's enumeration and
every non-2xx response, the call fails with the `detail` string of the JSON
error body when present and non-empty, and with the generic per-operation
message otherwise; every 2xx response (including a 204 on delete) succeeds
and never produces this failure. -/
theorem claim_C8 (r : HttpResponse) :
    (respOk r = false →
      getStory r = Except.error (jsStrOr r.detail "Failed to get story")
      ∧ listChapters r = Except.error (jsStrOr r.detail "Failed to list chapters")
      ∧ runDay r = Except.error (jsStrOr r.detail "Failed to run day")
      ∧ generateEnding r = Except.error (jsStrOr r.detail "Failed to generate ending")
      ∧ listStories r = Except.error (jsStrOr r.detail "Failed to list stories")
      ∧ createStory r = Except.error (jsStrOr r.detail "Failed to create story")
      ∧ getEmotions r = Except.error (jsStrOr r.detail "Failed to get emotions")
      ∧ listDemoStories r = Except.error (jsStrOr r.detail "Failed to list demo stories")
      ∧ createStoryFromDemo r =
          Except.error (jsStrOr r.detail "Failed to create story from demo")
      ∧ deleteStory r = Except.error (jsStrOr r.detail "Failed to delete story"))
    ∧ (respOk r = true →
      getStory r = Except.ok ()
      ∧ listChapters r = Except.ok ()
      ∧ runDay r = Except.ok ()
      ∧ generateEnding r = Except.ok ()
      ∧ listStories r = Except.ok ()
      ∧ createStory r = Except.ok ()
      ∧ getEmotions r = Except.ok ()
      ∧ listDemoStories r = Except.ok ()
      ∧ createStoryFromDemo r = Except.ok ()
      ∧ deleteStory r = Except.ok ()) := by
  constructor
  · intro h
    have h204 : (r.status == 204) = false := by
      have : r.status ≠ 204 := by
        intro hs
        rw [respOk, hs] at h
        cases h
      simpa using this
    simp [getStory, listChapters, runDay, generateEnding, listStories, createStory,
      getEmotions, listDemoStories, createStoryFromDemo, deleteStory, h, bne, h204]
  · intro h
    simp [getStory, listChapters, runDay, generateEnding, listStories, createStory,
      getEmotions, listDemoStories, createStoryFromDemo, deleteStory, h]

/-- C8 (witness): a 404 response with `detail` "boom" makes `getStory` fail
with that detail, and a plain 200 makes `deleteStory` succeed. -/
theorem claim_C8_witness :
    getStory r404 = Except.error (jsStrOr r404.detail "Failed to get story")
    ∧ deleteStory r200 = Except.ok () :=
  ⟨((claim_C8 r404).1 rfl).1, ((claim_C8 r200).2 rfl).2.2.2.2.2.2.2.2.2⟩

/-- C9 (counterexample): the reader has a single shared error slot, not one
per operation: after a load failure records "load failed", a subsequent
advance failure records "advance failed" into the same slot, so the load
error is no longer held anywhere — recording a failure for one operation
does not leave the other operations' recorded errors unchanged. -/
theorem claim_C9_counterexample :
    (loadStory idleEmptyState (Except.error "load failed")).error = "load failed"
    ∧ (handleContinue (loadStory idleEmptyState (Except.error "load failed"))
        (Except.error "advance failed") (Except.error "x")).error = "advance failed"
    ∧ ("advance failed" == "load failed") = false := by
  refine ⟨rfl, rfl, ?_⟩
  decide

/-- C9 (amended): all operations report into one shared error slot, so a new
failure replaces whatever error was recorded before; dismissing the
displayed error clears only this slot and leaves every other piece of
session state (snapshot, chapters, ending, selection, modal, in-flight
flags) unchanged. -/
theorem claim_C9_amended (s : SessionState) (e1 e2 : String)
    (d : Except String (StoryStatus × List Chapter)) :
    ((dismissError s).story = s.story
    ∧ (dismissError s).chapters = s.chapters
    ∧ (dismissError s).ending = s.ending
    ∧ (dismissError s).loading = s.loading
    ∧ (dismissError s).generating = s.generating
    ∧ (dismissError s).generatingEnding = s.generatingEnding
    ∧ (dismissError s).selectedChapter = s.selectedChapter
    ∧ (dismissError s).showModal = s.showModal
    ∧ (dismissError s).error = "")
    ∧ (loadStory s (Except.error e1)).error = e1
    ∧ (handleContinue (loadStory s (Except.error e1)) (Except.error e2) d).error = e2 :=
  ⟨⟨rfl, rfl, rfl, rfl, rfl, rfl, rfl, rfl, rfl⟩, rfl, rfl⟩

/-- C10: when the selected key is day 0 (the prologue), the displayed
chapter is the first element of the chapter list — identical to having no
selection at all, because the selection test treats the value 0 as absent —
and not in general the chapter whose `day` equals 0, as the concrete list
`[chDayOne, chPrologue]` shows. -/
theorem claim_C10 (chs : List Chapter) (_h : chs ≠ []) :
    currentChapter (some 0) chs = chs.head?
    ∧ currentChapter (some 0) chs = currentChapter none chs
    ∧ currentChapter (some 0) [chDayOne, chPrologue] = some chDayOne
    ∧ List.find? (fun c => c.day == (0 : Int)) [chDayOne, chPrologue] = some chPrologue := by
  refine ⟨rfl, rfl, rfl, ?_⟩
  decide

/-- C10 (witness): the theorem applied to the two-chapter list. -/
theorem claim_C10_witness :
    currentChapter (some 0) [chDayOne, chPrologue] = [chDayOne, chPrologue].head? :=
  (claim_C10 [chDayOne, chPrologue] (by decide)).1
